import Mathlib

/-!
Shallow embedding of the IVR-AI middleware core: the session store and
lifecycle manager (`session_manager.py`), the mock dialogue policy engine
(`ai_connector.py`, `_mock_ai_response`), and the transaction processors
(`main.py`).  Wall-clock time is modelled as an explicit `Nat` tick passed
to every operation that calls `datetime.now()` in the source; Python
dictionaries are modelled as insertion-ordered association lists; a Python
exception escaping a function is modelled as an `Option`/`Except` failure
value carrying no result.
-/

namespace IvrMiddleware

/-- Lower-casing of a string, character by character.  Models the Python
`str.lower()` call in `_mock_ai_response` (identical to it on the ASCII
keyword alphabet the policy engine uses). -/
def pyLower (s : String) : String :=
  ⟨s.data.map Char.toLower⟩

/-- Substring test on character lists: `hasSubstr pat hay` is true when
`pat` occurs contiguously inside `hay`.  Models the Python `pat in hay`
operator on strings. -/
def hasSubstr (pat : List Char) : List Char → Bool
  | [] => pat.isEmpty
  | c :: t => pat.isPrefixOf (c :: t) || hasSubstr pat t

/-- String form of the Python substring operator `pat in hay`. -/
def strContains (hay pat : String) : Bool :=
  hasSubstr pat.data hay.data

/-- Models `any(word in text for word in words)` from `ai_connector.py`. -/
def containsAny (text : String) (words : List String) : Bool :=
  words.any (fun w => strContains text w)

/-- Call status enumeration, from `models.py` (`CallStatus`). -/
inductive CallStatus where
  | active
  | completed
  | failed
  | transferred
deriving DecidableEq

/-- One recorded conversational turn, from `models.py` (`Interaction`).
The optional input-kind tag is an open string. -/
structure Interaction where
  timestamp : Nat
  speaker : String
  message : String
  input_type : Option String := none
deriving DecidableEq

/-- A call session, from `models.py` (`CallSession`).  The open `context`
and `booking_data` dictionaries are modelled as association lists of
string keys to string values (every value the mock policy ever writes is
a string). -/
structure CallSession where
  call_id : String
  caller_number : String
  start_time : Nat
  end_time : Option Nat := none
  status : CallStatus := CallStatus.active
  interactions : List Interaction := []
  context : List (String × String) := []
  current_intent : Option String := none
  booking_data : Option (List (String × String)) := none
deriving DecidableEq

/-- Key membership in a Python dict: `k in d`. -/
def dictHas (d : List (String × String)) (k : String) : Bool :=
  d.any (fun p => p.1 == k)

/-- Python dict assignment `d[k] = v`: overwrite when the key exists,
otherwise append (Python dicts preserve insertion order). -/
def dictSet (d : List (String × String)) (k v : String) : List (String × String) :=
  if dictHas d k then d.map (fun p => if p.1 == k then (k, v) else p)
  else d ++ [(k, v)]

/-- Python dict read `d[k]` for a key known to be present; absent keys
yield `""` (the mock policy only reads keys it has checked). -/
def dictGet (d : List (String × String)) (k : String) : String :=
  ((d.find? (fun p => p.1 == k)).map (fun p => p.2)).getD ""

/-- The keyword set of the booking-intent branch (`ai_connector.py:76`). -/
def bookingKeywords : List String := ["book", "booking", "reserve", "ticket"]

/-- The keyword set of the status-intent branch (`ai_connector.py:81`). -/
def statusKeywords : List String := ["status", "check", "flight status"]

/-- The keyword set of the cancellation branch (`ai_connector.py:86`). -/
def cancelKeywords : List String := ["cancel", "cancellation"]

/-- The keyword set of the domestic-flight branch (`ai_connector.py:91`). -/
def domesticKeywords : List String := ["domestic"]

/-- The keyword set of the international-flight branch (`ai_connector.py:96`). -/
def internationalKeywords : List String := ["international"]

/-- The keyword set of the agent-transfer branch (`ai_connector.py:101`). -/
def agentKeywords : List String := ["agent", "representative", "human"]

/-- Reply template of the booking branch. -/
def bookingMessage : String :=
  "I can help you book a flight. Are you looking for a domestic or international flight?"

/-- Reply template of the status branch. -/
def statusMessage : String :=
  "I can check your flight status. Please provide your flight number."

/-- Reply template of the cancellation branch. -/
def cancelMessage : String :=
  "I can help you cancel your booking. Please provide your booking ID."

/-- Reply template of the domestic branch. -/
def domesticMessage : String :=
  "Great! Where would you like to fly from?"

/-- Reply template of the international branch. -/
def internationalMessage : String :=
  "Perfect! Which city will you be departing from?"

/-- Reply template of the agent-transfer branch. -/
def agentMessage : String :=
  "I\x27ll connect you with an agent. Please hold."

/-- Fallback reply when inside an in-progress booking whose five slots are
already filled (`ai_connector.py:140`). -/
def rephraseMessage : String :=
  "I didn\x27t quite understand. Could you rephrase that?"

/-- Absolute-fallback reply (`ai_connector.py:144`). -/
def unknownMessage : String :=
  "I didn\x27t quite understand. You can say \x27book a flight\x27, \x27check flight status\x27, or \x27cancel booking\x27."

/-- Confirmation summary built by the contact-collecting branch
(`ai_connector.py:135`), an f-string over the (just-updated) booking dict. -/
def confirmMessage (b : List (String × String)) : String :=
  "Perfect! Let me confirm: Flying from " ++ dictGet b "origin" ++ " to " ++
    dictGet b "destination" ++ " on " ++ dictGet b "date" ++ " for " ++
    dictGet b "passenger_name" ++ ". Should I proceed with the booking?"

/-- The local variables of `_mock_ai_response` at its final `return`
statement: `intent` may never have been assigned on the path taken (the
slot-filling branches at `ai_connector.py:113-137` assign only `message`
and `action`), so it is an `Option (Option String)` whose outer `none`
means "unbound local".  `booking` is the session's `booking_data` after
the in-place dict mutations of the slot-filling branches. -/
structure MockLocals where
  intent : Option (Option String)
  message : String
  action : Option String
  booking : Option (List (String × String))
deriving DecidableEq

/-- Branch selection of `_mock_ai_response` (`ai_connector.py:73-145`),
computing the local variables present at the return statement.  The
condition guarding slot filling is the Python truthiness test
`current_intent == "book_flight" and session_context.booking_data`: the
booking dict must be non-null and non-empty. -/
def mockLocals (user_input : String) (s : CallSession) : MockLocals :=
  let t := pyLower user_input
  if containsAny t bookingKeywords then
    ⟨some (some "book_flight"), bookingMessage, some "collect_booking_type", s.booking_data⟩
  else if containsAny t statusKeywords then
    ⟨some (some "check_status"), statusMessage, some "collect_flight_id", s.booking_data⟩
  else if containsAny t cancelKeywords then
    ⟨some (some "cancel_booking"), cancelMessage, some "collect_booking_id", s.booking_data⟩
  else if containsAny t domesticKeywords then
    ⟨some (some "domestic_flight"), domesticMessage, some "collect_origin", s.booking_data⟩
  else if containsAny t internationalKeywords then
    ⟨some (some "international_flight"), internationalMessage, some "collect_origin", s.booking_data⟩
  else if containsAny t agentKeywords then
    ⟨some (some "speak_to_agent"), agentMessage, some "transfer_agent", s.booking_data⟩
  else if s.current_intent == some "book_flight" && !(s.booking_data.getD []).isEmpty then
    let b := s.booking_data.getD []
    if !dictHas b "origin" then
      ⟨none, "Great! And where would you like to fly to?", some "collect_destination",
        some (dictSet b "origin" user_input)⟩
    else if !dictHas b "destination" then
      ⟨none, "When would you like to travel? Please provide the date.", some "collect_date",
        some (dictSet b "destination" user_input)⟩
    else if !dictHas b "date" then
      ⟨none, "May I have your full name for the booking?", some "collect_passenger_name",
        some (dictSet b "date" user_input)⟩
    else if !dictHas b "passenger_name" then
      ⟨none, "And your contact number?", some "collect_contact",
        some (dictSet b "passenger_name" user_input)⟩
    else if !dictHas b "contact" then
      let b2 := dictSet b "contact" user_input
      ⟨none, confirmMessage b2, some "confirm_booking", some b2⟩
    else
      ⟨some (some "unknown"), rephraseMessage, none, s.booking_data⟩
  else
    ⟨some (some "unknown"), unknownMessage, none, s.booking_data⟩

/-- The response dictionary `_mock_ai_response` returns
(`ai_connector.py:147-154`).  The confidence float is modelled exactly by
its value in hundredths (the source compares only the literal constants
0.85, 0.9 and 0.0, all exact in hundredths): `confidence = 85` models the
float literal `0.85`. -/
structure AIResult where
  call_id : String
  message : String
  intent : Option String
  action : Option String
  confidence : Nat
  parameters : List (String × String)
deriving DecidableEq

/-- `_mock_ai_response` (`ai_connector.py:64-154`).  The first component
is the returned response, `none` when the function raises instead of
returning (referencing the local `intent` at `ai_connector.py:150` raises
`UnboundLocalError` on every path that did not assign it); the second
component is the caller's session afterwards, whose `booking_data` the
slot-filling branches mutate in place before the return statement runs. -/
def mock_ai_response (user_input : String) (s : CallSession) :
    Option AIResult × CallSession :=
  let l := mockLocals user_input s
  let s2 := { s with booking_data := l.booking }
  match l.intent with
  | none => (none, s2)
  | some i =>
    (some { call_id := s.call_id, message := l.message, intent := i,
            action := l.action, confidence := 85, parameters := [] }, s2)

/-- The static keyword routing table described by the spec (§4.2 step 1
and the "static lookup table" sentence): the six top-level branches in
their fixed priority order, each carrying its keyword set, intent name,
reply template and next-action tag.  This definition follows the spec's
words; the source-side router is `mockLocals`. -/
def specKeywordTable : List (List String × String × String × String) :=
  [ (bookingKeywords, ("book_flight", bookingMessage, "collect_booking_type")),
    (statusKeywords, ("check_status", statusMessage, "collect_flight_id")),
    (cancelKeywords, ("cancel_booking", cancelMessage, "collect_booking_id")),
    (domesticKeywords, ("domestic_flight", domesticMessage, "collect_origin")),
    (internationalKeywords, ("international_flight", internationalMessage, "collect_origin")),
    (agentKeywords, ("speak_to_agent", agentMessage, "transfer_agent")) ]

/-- First-match lookup over the spec's routing table: the first entry (in
priority order) whose keyword set has a member contained in the
lower-cased utterance wins. -/
def specKeywordRoute (t : String) : Option (String × String × String) :=
  (specKeywordTable.find? (fun e => containsAny t e.1)).map (fun e => e.2)

/-- The session store, from `session_manager.py` (`SessionManager`): the
insertion-ordered `sessions` dict plus the configured idle timeout (the
`timedelta` is modelled in the same ticks as timestamps; the default is
30 minutes). -/
structure SessionStore where
  sessions : List (String × CallSession)
  session_timeout : Nat
deriving DecidableEq

/-- Python `self.sessions.get(call_id)`. -/
def lookupSession (st : SessionStore) (call_id : String) : Option CallSession :=
  (st.sessions.find? (fun p => p.1 == call_id)).map (fun p => p.2)

/-- `SessionManager.create_session` (`session_manager.py:26-52`): when
the id is already present the existing session is returned and the store
is untouched; otherwise a fresh active session with the current time as
`start_time`, empty history and empty context is inserted. -/
def create_session (st : SessionStore) (call_id caller_number : String) (now : Nat) :
    CallSession × SessionStore :=
  match lookupSession st call_id with
  | some s => (s, st)
  | none =>
    let s : CallSession :=
      { call_id := call_id, caller_number := caller_number, start_time := now,
        status := CallStatus.active, interactions := [], context := [] }
    (s, { st with sessions := st.sessions ++ [(call_id, s)] })

/-- `SessionManager._is_session_expired` (`session_manager.py:267-277`):
idle longer than the timeout, where the last-activity time is the last
interaction's timestamp, or `start_time` when there are no interactions. -/
def is_session_expired (timeout : Nat) (now : Nat) (s : CallSession) : Bool :=
  let last :=
    match s.interactions.getLast? with
    | none => s.start_time
    | some i => i.timestamp
  timeout < now - last

/-- `SessionManager.end_session` (`session_manager.py:196-223`): sets
`end_time` and the final status on the session object, then deletes it
from the active dict.  The third component is the terminated session's
final state, observable through outstanding references to the object in
Python; `none` when the id was absent (the `False` case). -/
def end_session (st : SessionStore) (call_id : String) (status : CallStatus) (now : Nat) :
    Bool × SessionStore × Option CallSession :=
  match lookupSession st call_id with
  | none => (false, st, none)
  | some s =>
    let s2 := { s with end_time := some now, status := status }
    (true, { st with sessions := st.sessions.filter (fun p => p.1 != call_id) }, some s2)

/-- `SessionManager.get_session` (`session_manager.py:54-76`): looks the
id up; when the stored session is expired it calls
`self.end_session(call_id)` — with no status argument, so Python's
default `CallStatus.COMPLETED` applies — and returns `None`.  The result
is (returned session, store afterwards, final state of a session the
expiry path terminated). -/
def get_session (st : SessionStore) (call_id : String) (now : Nat) :
    Option CallSession × SessionStore × Option CallSession :=
  match lookupSession st call_id with
  | none => (none, st, none)
  | some s =>
    if is_session_expired st.session_timeout now s then
      let r := end_session st call_id CallStatus.completed now
      (none, r.2.1, r.2.2)
    else
      (some s, st, none)

/-- A JSON-ish value arriving in a transaction-request dict
(`main.py` transaction endpoints); only the shapes the processors
inspect are distinguished. -/
inductive PyVal where
  | str : String → PyVal
  | int : Int → PyVal
deriving DecidableEq

/-- Python `data.get(k)` / `k in data` lookup on a transaction dict. -/
def dictFind (d : List (String × PyVal)) (k : String) : Option PyVal :=
  (d.find? (fun p => p.1 == k)).map (fun p => p.2)

/-- Pydantic validation of one required string field of `FlightBooking`
(`models.py:79-87`): absent or non-string values raise `ValidationError`,
modelled as `Except.error` with the offending field named. -/
def reqStr (d : List (String × PyVal)) (k : String) : Except String String :=
  match dictFind d k with
  | some (PyVal.str v) => Except.ok v
  | some _ => Except.error (k ++ ": str type expected")
  | none => Except.error (k ++ ": field required")

/-- Pydantic validation of a required string field carrying `min_length`
/ `max_length` constraints (`origin` and `destination` in `models.py`). -/
def boundedStr (d : List (String × PyVal)) (k : String) (lo hi : Nat) :
    Except String String :=
  match reqStr d k with
  | Except.error e => Except.error e
  | Except.ok v =>
    if v.length < lo then Except.error (k ++ ": min length")
    else if hi < v.length then Except.error (k ++ ": max length")
    else Except.ok v

/-- The validated `FlightBooking` record (`models.py:79-87`). -/
structure FlightBooking where
  origin : String
  destination : String
  travel_date : String
  passenger_name : String
  passenger_contact : String
  booking_type : String
  num_passengers : Int
deriving DecidableEq

/-- The six required fields of `FlightBooking` (`models.py:79-87`); only
`num_passengers` carries a default and is optional. -/
def requiredBookingFields : List String :=
  ["origin", "destination", "travel_date", "passenger_name",
   "passenger_contact", "booking_type"]

/-- `FlightBooking(**data)`: pydantic construction, raising (as
`Except.error`) on the first violated constraint.  Pydantic collects all
field errors into one `ValidationError`; only the first one is recorded
here, which is faithful for the raised-versus-returned distinction.  The
field checks are written as an explicit sequential chain. -/
def FlightBooking.validate (data : List (String × PyVal)) : Except String FlightBooking :=
  match boundedStr data "origin" 3 50 with
  | Except.error e => Except.error e
  | Except.ok origin =>
    match boundedStr data "destination" 3 50 with
    | Except.error e => Except.error e
    | Except.ok destination =>
      match reqStr data "travel_date" with
      | Except.error e => Except.error e
      | Except.ok travel_date =>
        match reqStr data "passenger_name" with
        | Except.error e => Except.error e
        | Except.ok passenger_name =>
          match reqStr data "passenger_contact" with
          | Except.error e => Except.error e
          | Except.ok passenger_contact =>
            match reqStr data "booking_type" with
            | Except.error e => Except.error e
            | Except.ok booking_type =>
              match dictFind data "num_passengers" with
              | some (PyVal.int n) =>
                if n < 1 then Except.error "num_passengers: ge 1"
                else if 9 < n then Except.error "num_passengers: le 9"
                else Except.ok
                  { origin := origin, destination := destination,
                    travel_date := travel_date, passenger_name := passenger_name,
                    passenger_contact := passenger_contact,
                    booking_type := booking_type, num_passengers := n }
              | some _ => Except.error "num_passengers: int type expected"
              | none => Except.ok
                  { origin := origin, destination := destination,
                    travel_date := travel_date, passenger_name := passenger_name,
                    passenger_contact := passenger_contact,
                    booking_type := booking_type, num_passengers := 1 }

/-- The success payload of `process_flight_booking` (the `details` echo
of the validated record is carried alongside). -/
structure BookingResult where
  success : Bool
  booking_id : String
  message : String
  details : FlightBooking
deriving DecidableEq

/-- `process_flight_booking` (`main.py:440-452`): constructs
`FlightBooking(**data)` — an unguarded pydantic validation whose failure
escapes as a raised `ValidationError` (`Except.error`) — then returns a
success dict whose booking id is synthesized from the current time (the
`strftime` rendering of the clock is abstracted to `toString now`). -/
def process_flight_booking (data : List (String × PyVal)) (now : Nat) :
    Except String BookingResult :=
  match FlightBooking.validate data with
  | Except.error e => Except.error e
  | Except.ok b =>
    Except.ok
      { success := true, booking_id := "BK" ++ toString now,
        message := "Booking confirmed from " ++ b.origin ++ " to " ++ b.destination,
        details := b }

/-- The dict `process_cancellation` returns. -/
structure CancellationResult where
  success : Bool
  booking_id : Option PyVal
  message : String
deriving DecidableEq

/-- `process_cancellation` (`main.py:478-487`): reads
`data.get("booking_id")` and unconditionally returns a success dict; no
check of the id and no failure path exists. -/
def process_cancellation (data : List (String × PyVal)) : CancellationResult :=
  { success := true, booking_id := dictFind data "booking_id",
    message := "Booking cancelled successfully" }

/-- Concrete session for claim C1: an in-progress booking (non-null,
non-empty `bookingData` holding only a booking type) awaiting its origin
slot. -/
def c1Session : CallSession :=
  { call_id := "CA1", caller_number := "+919876543210", start_time := 0,
    current_intent := some "book_flight",
    booking_data := some [("booking_type", "domestic")] }

/-- Concrete session for claim C2: no interactions, started at tick 0. -/
def c2Session : CallSession :=
  { call_id := "CA2", caller_number := "+912", start_time := 0 }

/-- Concrete store for claim C2: one stored session, 30-tick timeout. -/
def c2Store : SessionStore :=
  { sessions := [("CA2", c2Session)], session_timeout := 30 }

/-- Concrete transaction data for claim C3: every required booking field
except `origin` is present and well-formed. -/
def c3DataMissingOrigin : List (String × PyVal) :=
  [("destination", PyVal.str "Delhi"), ("travel_date", PyVal.str "2025-11-15"),
   ("passenger_name", PyVal.str "John Doe"),
   ("passenger_contact", PyVal.str "+919876543210"),
   ("booking_type", PyVal.str "domestic")]

/-- Second concrete transaction data for claim C3, also lacking `origin`. -/
def c3DataOnlyType : List (String × PyVal) :=
  [("booking_type", PyVal.str "international")]

/-- Third concrete transaction data for claim C3: every required booking
field except `passenger_name` is present and well-formed. -/
def c3DataMissingName : List (String × PyVal) :=
  [("origin", PyVal.str "Mumbai"), ("destination", PyVal.str "Delhi"),
   ("travel_date", PyVal.str "2025-11-15"),
   ("passenger_contact", PyVal.str "+919876543210"),
   ("booking_type", PyVal.str "domestic")]

/-- Concrete fresh session for claim C4. -/
def c4Session : CallSession :=
  { call_id := "CA4", caller_number := "+914", start_time := 0 }

/-- Concrete utterance for claim C4, containing a booking keyword together
with keywords of three later-priority branches. -/
def c4Utterance : String :=
  "Please book me a domestic ticket or get me an agent"

/-- Concrete session for claim C5: `bookingData = {origin: Mumbai}`, the
scenario of spec item 8 whose reply should ask for the travel date. -/
def c5Session : CallSession :=
  { call_id := "CA5", caller_number := "+915", start_time := 0,
    current_intent := some "book_flight",
    booking_data := some [("origin", "Mumbai")] }

/-- Concrete session for claim C6, mid slot-filling. -/
def c6Session : CallSession :=
  { call_id := "CA6", caller_number := "+916", start_time := 0,
    current_intent := some "book_flight",
    booking_data := some [("origin", "Chennai")] }

/-- Concrete fresh session for claim C7. -/
def c7Session : CallSession :=
  { call_id := "CA7", caller_number := "+917", start_time := 0 }

/-- A fully-filled booking dict (all five slot-filling fields). -/
def c7FullBooking : List (String × String) :=
  [("origin", "Mumbai"), ("destination", "Delhi"), ("date", "2025-11-15"),
   ("passenger_name", "John Doe"), ("contact", "+919876543210")]

/-- Concrete session for claim C7 on the slot-filling context path with
every slot already filled (the one sub-branch of that path that returns). -/
def c7FullSession : CallSession :=
  { call_id := "CA7F", caller_number := "+917", start_time := 0,
    current_intent := some "book_flight", booking_data := some c7FullBooking }

/-- The response the booking-keyword branch produces for `c7Session`. -/
def c7Result : AIResult :=
  { call_id := "CA7", message := bookingMessage, intent := some "book_flight",
    action := some "collect_booking_type", confidence := 85, parameters := [] }

/-- Concrete session for claim C8, created at tick 5. -/
def c8Session : CallSession :=
  { call_id := "CA8", caller_number := "+918", start_time := 5 }

/-- Concrete store for claim C8. -/
def c8Store : SessionStore :=
  { sessions := [("CA8", c8Session)], session_timeout := 30 }

/-- Concrete session for claim C10: started at tick 0, no interactions. -/
def c10Session : CallSession :=
  { call_id := "CA10", caller_number := "+9110", start_time := 0 }

/-- Concrete store for claim C10: at tick 100 with a 30-tick timeout its
only session is expired. -/
def c10Store : SessionStore :=
  { sessions := [("CA10", c10Session)], session_timeout := 30 }

/-- The second component of `mock_ai_response` is always the input session
with `booking_data` replaced by the (possibly mutated) local booking dict;
no other session field is ever written. -/
theorem mock_ai_response_snd (u : String) (s : CallSession) :
    (mock_ai_response u s).2 = { s with booking_data := (mockLocals u s).booking } := by
  unfold mock_ai_response
  cases h : (mockLocals u s).intent <;> simp [h]

/-- C1: the claim says that for every session with `currentIntent =
"book_flight"` and non-null `bookingData`, and every utterance matching no
top-level keyword, `_mock_ai_response` returns a structured result
carrying message, intent, action, confidence and parameters and never
raises.  The code violates this: on the slot-filling branches the local
`intent` is never assigned, so the return statement raises
`UnboundLocalError` — here, at the concrete failing input, evaluation
yields no result (`none`), only the in-place booking mutation. -/
theorem c1_slot_filling_turn_raises :
    mock_ai_response "Delhi" c1Session =
      (none, { c1Session with
                 booking_data := some [("booking_type", "domestic"), ("origin", "Delhi")] }) := by
  decide

/-- C2: the claim says `get_session` on an expired session terminates it
with status `Failed`, removes it and returns NotFound.  At the concrete
expired input the code does return `none` and does remove the session,
but terminates it with status `completed` — `get_session` calls
`end_session(call_id)` without a status argument, so Python's default
`CallStatus.COMPLETED` applies, not `FAILED`. -/
theorem c2_expired_lookup_completes_not_fails :
    get_session c2Store "CA2" 31 =
      (none, { c2Store with sessions := [] },
       some { c2Session with end_time := some 31, status := CallStatus.completed }) ∧
    CallStatus.completed ≠ CallStatus.failed := by
  decide

/-- C3 counterexample: the claim says a booking-finalization input missing
a required field yields `success=false` with a descriptive message and no
exception; at this concrete input (every field but `origin` present)
`process_flight_booking` instead raises — `FlightBooking(**data)` fails
pydantic validation and the error escapes — so no result dict at all is
produced. -/
theorem c3_missing_origin_raises :
    process_flight_booking c3DataMissingOrigin 0 =
      Except.error "origin: field required" := by
  rfl

/-- A required string field whose key is absent makes `reqStr` fail with
the pydantic field-required error. -/
theorem reqStr_none (d : List (String × PyVal)) (k : String)
    (h : dictFind d k = none) :
    reqStr d k = Except.error (k ++ ": field required") := by
  unfold reqStr
  rw [h]

/-- A length-constrained required field whose key is absent makes
`boundedStr` fail with the pydantic field-required error. -/
theorem boundedStr_none (d : List (String × PyVal)) (k : String) (lo hi : Nat)
    (h : dictFind d k = none) :
    boundedStr d k lo hi = Except.error (k ++ ": field required") := by
  unfold boundedStr
  rw [reqStr_none d k h]

/-- `FlightBooking(**data)` fails whenever any of the six required fields
is absent from the request dict. -/
theorem validate_missing_required (data : List (String × PyVal)) (k : String)
    (hk : k ∈ requiredBookingFields) (h : dictFind data k = none) :
    (FlightBooking.validate data).isOk = false := by
  simp [requiredBookingFields] at hk
  rcases hk with rfl | rfl | rfl | rfl | rfl | rfl
  · unfold FlightBooking.validate
    rw [boundedStr_none data "origin" 3 50 h]
    rfl
  · unfold FlightBooking.validate
    cases h1 : boundedStr data "origin" 3 50
    · rfl
    · rw [boundedStr_none data "destination" 3 50 h]
      rfl
  · unfold FlightBooking.validate
    cases h1 : boundedStr data "origin" 3 50
    · rfl
    · cases h2 : boundedStr data "destination" 3 50
      · rfl
      · rw [reqStr_none data "travel_date" h]
        rfl
  · unfold FlightBooking.validate
    cases h1 : boundedStr data "origin" 3 50
    · rfl
    · cases h2 : boundedStr data "destination" 3 50
      · rfl
      · cases h3 : reqStr data "travel_date"
        · rfl
        · rw [reqStr_none data "passenger_name" h]
          rfl
  · unfold FlightBooking.validate
    cases h1 : boundedStr data "origin" 3 50
    · rfl
    · cases h2 : boundedStr data "destination" 3 50
      · rfl
      · cases h3 : reqStr data "travel_date"
        · rfl
        · cases h4 : reqStr data "passenger_name"
          · rfl
          · rw [reqStr_none data "passenger_contact" h]
            rfl
  · unfold FlightBooking.validate
    cases h1 : boundedStr data "origin" 3 50
    · rfl
    · cases h2 : boundedStr data "destination" 3 50
      · rfl
      · cases h3 : reqStr data "travel_date"
        · rfl
        · cases h4 : reqStr data "passenger_name"
          · rfl
          · cases h5 : reqStr data "passenger_contact"
            · rfl
            · rw [reqStr_none data "booking_type" h]
              rfl

/-- C3 amended: for every booking-finalization input missing any of the
required booking fields (origin, destination, travel_date,
passenger_name, passenger_contact or booking_type),
`process_flight_booking` raises a pydantic `ValidationError` (modelled as
`Except.error`) instead of returning a result; and it has no
`success=false` path at all — every result it does return carries
`success=true`. -/
theorem c3_missing_required_field_raises :
    (∀ (data : List (String × PyVal)) (now : Nat) (k : String),
        k ∈ requiredBookingFields → dictFind data k = none →
        (process_flight_booking data now).isOk = false) ∧
    (∀ (data : List (String × PyVal)) (now : Nat) (r : BookingResult),
        process_flight_booking data now = Except.ok r → r.success = true) := by
  constructor
  · intro data now k hk h
    unfold process_flight_booking
    cases h2 : FlightBooking.validate data
    · rfl
    · have hv := validate_missing_required data k hk h
      rw [h2] at hv
      exact Bool.noConfusion hv
  · intro data now r h
    unfold process_flight_booking at h
    cases h2 : FlightBooking.validate data
    · rw [h2] at h
      exact Except.noConfusion h
    · rw [h2] at h
      injection h with h3
      subst h3
      rfl

/-- C3 witness: the amended theorem applied at a request missing only
`origin` and a request missing only `passenger_name`. -/
theorem c3_missing_required_field_raises_witness :
    (process_flight_booking c3DataOnlyType 7).isOk = false ∧
    (process_flight_booking c3DataMissingName 3).isOk = false :=
  ⟨c3_missing_required_field_raises.1 c3DataOnlyType 7 "origin"
     (by decide) (by decide),
   c3_missing_required_field_raises.1 c3DataMissingName 3 "passenger_name"
     (by decide) (by decide)⟩

/-- C4: the policy engine lower-cases the utterance and routes it by the
first matching keyword set in the fixed priority order booking → status →
cancellation → domestic → international → agent-transfer; whenever the
spec's static first-match table routes the lower-cased utterance to an
entry, `_mock_ai_response` returns exactly that entry's fixed intent,
reply template and action tag (with the fixed 0.85 confidence), leaving
the session untouched — regardless of which later-priority keywords also
occur. -/
theorem c4_keyword_priority (u : String) (s : CallSession) (i m a : String)
    (h : specKeywordRoute (pyLower u) = some (i, m, a)) :
    mock_ai_response u s =
      (some { call_id := s.call_id, message := m, intent := some i, action := some a,
              confidence := 85, parameters := [] }, s) := by
  unfold specKeywordRoute specKeywordTable at h
  by_cases h1 : containsAny (pyLower u) bookingKeywords
  · simp [List.find?, h1] at h
    obtain ⟨hi, hm, ha⟩ := h
    subst hi; subst hm; subst ha
    simp [mock_ai_response, mockLocals, h1]
  · by_cases h2 : containsAny (pyLower u) statusKeywords
    · simp [List.find?, h1, h2] at h
      obtain ⟨hi, hm, ha⟩ := h
      subst hi; subst hm; subst ha
      simp [mock_ai_response, mockLocals, h1, h2]
    · by_cases h3 : containsAny (pyLower u) cancelKeywords
      · simp [List.find?, h1, h2, h3] at h
        obtain ⟨hi, hm, ha⟩ := h
        subst hi; subst hm; subst ha
        simp [mock_ai_response, mockLocals, h1, h2, h3]
      · by_cases h4 : containsAny (pyLower u) domesticKeywords
        · simp [List.find?, h1, h2, h3, h4] at h
          obtain ⟨hi, hm, ha⟩ := h
          subst hi; subst hm; subst ha
          simp [mock_ai_response, mockLocals, h1, h2, h3, h4]
        · by_cases h5 : containsAny (pyLower u) internationalKeywords
          · simp [List.find?, h1, h2, h3, h4, h5] at h
            obtain ⟨hi, hm, ha⟩ := h
            subst hi; subst hm; subst ha
            simp [mock_ai_response, mockLocals, h1, h2, h3, h4, h5]
          · by_cases h6 : containsAny (pyLower u) agentKeywords
            · simp [List.find?, h1, h2, h3, h4, h5, h6] at h
              obtain ⟨hi, hm, ha⟩ := h
              subst hi; subst hm; subst ha
              simp [mock_ai_response, mockLocals, h1, h2, h3, h4, h5, h6]
            · simp [List.find?, h1, h2, h3, h4, h5, h6] at h

/-- C4 witness: an utterance holding a booking keyword together with
domestic, ticket and agent keywords still routes to the booking branch. -/
theorem c4_keyword_priority_witness :
    mock_ai_response c4Utterance c4Session =
      (some { call_id := "CA4", message := bookingMessage, intent := some "book_flight",
              action := some "collect_booking_type", confidence := 85,
              parameters := [] }, c4Session) :=
  c4_keyword_priority c4Utterance c4Session "book_flight" bookingMessage
    "collect_booking_type" (by decide)

/-- C5: the claim says the slot-filling turn fills the first absent field
with the utterance and returns the question for the next field.  At the
spec's own scenario (`bookingData = {origin: Mumbai}`, utterance
"Delhi") the code does write `destination = "Delhi"` into the booking
dict, but raises `UnboundLocalError` at the return statement (the local
`intent` was never assigned on this branch), so the date prompt is never
returned: evaluation yields no result. -/
theorem c5_destination_filled_but_no_reply :
    mock_ai_response "Delhi" c5Session =
      (none, { c5Session with
                 booking_data := some [("origin", "Mumbai"), ("destination", "Delhi")] }) := by
  decide

/-- C6 counterexample: `_mock_ai_response` is not pure with respect to
the session — at this concrete slot-filling input the session it was
given differs afterwards (its booking dict gained the `destination`
entry). -/
theorem c6_slot_filling_mutates_session :
    (mock_ai_response "Delhi" c6Session).2 ≠ c6Session := by
  decide

/-- C6 amended: `_mock_ai_response` leaves the session's `context`,
`current_intent` and `interactions` unchanged on every path; only
`booking_data` may change (the slot-filling branches write the utterance
into it in place). -/
theorem c6_frame_context_intent_interactions (u : String) (s : CallSession) :
    (mock_ai_response u s).2.context = s.context ∧
    (mock_ai_response u s).2.current_intent = s.current_intent ∧
    (mock_ai_response u s).2.interactions = s.interactions := by
  rw [mock_ai_response_snd]
  exact ⟨rfl, rfl, rfl⟩

/-- C7 counterexample: the claim says the 0.85 confidence of
keyword-matched turns is distinguishable from the slot-filling path's
confidence.  It is not: the only sub-branch of the slot-filling context
path that returns at all (booking already fully filled) returns the very
same 0.85 — the function has a single confidence constant. -/
theorem c7_confidence_not_distinguishable :
    ((mock_ai_response "I want to book a flight" c7Session).1.map AIResult.confidence
       = some 85) ∧
    ((mock_ai_response "please proceed" c7FullSession).1.map AIResult.confidence
       = some 85) := by
  decide

/-- C7 amended: every result `_mock_ai_response` actually returns — on
keyword-matched, fallback and filled-booking turns alike — carries
confidence exactly 0.85; mid slot-filling turns return nothing (they
raise), so no distinct slot-filling confidence exists. -/
theorem c7_confidence_constant (u : String) (s : CallSession) (r : AIResult)
    (h : (mock_ai_response u s).1 = some r) : r.confidence = 85 := by
  unfold mock_ai_response at h
  cases h2 : (mockLocals u s).intent
  · simp [h2] at h
  · simp [h2] at h
    rw [h.symm]

/-- C7 witness: the constant-confidence theorem applied to the concrete
booking-keyword response. -/
theorem c7_confidence_constant_witness : c7Result.confidence = 85 :=
  c7_confidence_constant "I want to book a flight" c7Session c7Result (by decide)

/-- C8: creating a session whose callId is already active returns the
stored session unchanged — original `start_time` included, whatever the
new callerRef and the current time — and leaves the store's active set
exactly as it was. -/
theorem c8_create_session_idempotent (st : SessionStore) (cid cref : String)
    (now : Nat) (s0 : CallSession) (h : lookupSession st cid = some s0) :
    create_session st cid cref now = (s0, st) := by
  unfold create_session
  rw [h]

/-- C8 witness: re-creating `CA8` at tick 77 with a different callerRef
returns the stored session with its original `start_time` of 5 and the
store untouched. -/
theorem c8_create_session_idempotent_witness :
    create_session c8Store "CA8" "+91999" 77 = (c8Session, c8Store) :=
  c8_create_session_idempotent c8Store "CA8" "+91999" 77 c8Session (by decide)

/-- C9 counterexample: the claim says the cancellation processor
validates that a booking id is present; at the concrete request carrying
no booking id at all it still returns `success=true` with the
cancellation-confirmation message — no validation exists. -/
theorem c9_cancellation_no_validation :
    process_cancellation [] =
      { success := true, booking_id := none,
        message := "Booking cancelled successfully" } := by
  decide

/-- C9 amended: for every cancellation request the processor performs no
validation: it always returns `success=true` with the fixed confirmation
message, echoing whatever `booking_id` value (possibly absent) the
request carried. -/
theorem c9_cancellation_always_succeeds (data : List (String × PyVal)) :
    (process_cancellation data).success = true ∧
    (process_cancellation data).message = "Booking cancelled successfully" ∧
    (process_cancellation data).booking_id = dictFind data "booking_id" :=
  ⟨rfl, rfl, rfl⟩

/-- C10: `create_session` never checks idle expiry — when the stored
session at the callId satisfies the expiry predicate it is still returned
unchanged and kept in the store, rather than being terminated and
replaced by a fresh session. -/
theorem c10_create_session_ignores_expiry (st : SessionStore) (cid cref : String)
    (now : Nat) (s0 : CallSession) (h : lookupSession st cid = some s0)
    (_hexp : is_session_expired st.session_timeout now s0 = true) :
    create_session st cid cref now = (s0, st) := by
  unfold create_session
  rw [h]

/-- C10 witness: at tick 100 the stored `CA10` session (idle since tick 0,
timeout 30) is expired, yet `create_session` hands it back unchanged. -/
theorem c10_create_session_ignores_expiry_witness :
    is_session_expired c10Store.session_timeout 100 c10Session = true ∧
    create_session c10Store "CA10" "+91000" 100 = (c10Session, c10Store) :=
  ⟨by decide,
   c10_create_session_ignores_expiry c10Store "CA10" "+91000" 100 c10Session
     (by decide) (by decide)⟩

end IvrMiddleware
